import Mathlib

/-!
Shallow embedding of `src/main.py`, a MAVLink ground-station telemetry
monitor.  The mutable module-level state (the two Tk text widgets, the
`all_status_messages` list, and the stdout diagnostics) is modelled as an
explicit `AppState` record; each Python handler becomes a pure state
transformer.  Python exceptions raised inside a handler are modelled with
`Except`, the error carrying the state as mutated up to the raise point
together with the exception message.  Numeric values are exact: every float
division in the program divides an integer field by a decimal constant, so
it is carried as an integer fraction and rendered in fixed point.
-/

/-- The decoded MAVLink messages the dispatch loop distinguishes, mirroring
the `msg_type` tags checked in `detect_incoming_messages`. -/
inductive MavMessage where
  | statustext (severity : Nat) (text : String)
  | heartbeat (base_mode : Nat) (custom_mode : Nat)
  | sysStatus (voltage_battery : Int) (load : Int)
  | other (msgId : Nat)
deriving DecidableEq, Repr

/-- Observable state of the program: the STATUSTEXT widget (list of lines,
newest first), the SYSTEM STATUS widget (list of lines, appended at the end),
the `all_status_messages` list (newest first), and the stdout diagnostics. -/
structure AppState where
  status_text_widget : List String
  system_info_text_widget : List String
  all_status_messages : List String
  diagnostics : List String
deriving DecidableEq, Repr

/-- The initial state: both widgets empty, no stored messages. -/
def initialState : AppState :=
  { status_text_widget := []
    system_info_text_widget := []
    all_status_messages := []
    diagnostics := [] }

/-- `max_messages = 100` from main.py line 29. -/
def max_messages : Nat := 100

/-- The `severity_levels` dict (main.py lines 17-26): severity code to
(description, color). -/
def severity_levels (code : Nat) : Option (String × String) :=
  if code = 0 then some ("EMERGENCY", "red")
  else if code = 1 then some ("ALERT", "orange red")
  else if code = 2 then some ("CRITICAL", "dark orange")
  else if code = 3 then some ("ERROR", "red")
  else if code = 4 then some ("WARNING", "orange")
  else if code = 5 then some ("NOTICE", "green")
  else if code = 6 then some ("INFO", "blue")
  else if code = 7 then some ("DEBUG", "gray")
  else none

/-- `severity_levels.get(code, default)` from main.py line 35, where the
default pair is `(UNKNOWN, black)`. -/
def severity_levels_get (code : Nat) : String × String :=
  (severity_levels code).getD ("UNKNOWN", "black")

/-- Python `f"{s:<w}"`: left-justify `s` in a field of width `w`, filling
with spaces on the right (no truncation when `s` is longer). -/
def ljust (s : String) (w : Nat) : String :=
  s ++ String.mk (List.replicate (w - s.length) ' ')

/-- The `full_message` f-string of main.py line 40:
`f"{timestamp:<20} [{severity_description:<12}] {message_text:<60}"`. -/
def full_message_line (timestamp : String) (severity : Nat) (text : String) : String :=
  ljust timestamp 20 ++ " [" ++ ljust (severity_levels_get severity).1 12 ++ "] " ++
    ljust text 60

/-- `handle_statustext` (main.py lines 33-51): builds the fixed-width line,
inserts it at the top of the widget and at the front of
`all_status_messages`, then if the list length exceeds `max_messages` pops
the last stored message and deletes the last widget line.  The wall-clock
timestamp string (`datetime.now().strftime(...)`) is passed in as the
ambient input `timestamp`. -/
def handle_statustext (timestamp : String) (severity : Nat) (text : String)
    (s : AppState) : AppState :=
  let full_message := full_message_line timestamp severity text
  let widget := full_message :: s.status_text_widget
  let msgs := full_message :: s.all_status_messages
  if msgs.length > max_messages then
    { s with status_text_widget := widget.dropLast
             all_status_messages := msgs.dropLast }
  else
    { s with status_text_widget := widget
             all_status_messages := msgs }

/-- `MAV_MODE_FLAG_SAFETY_ARMED` (bit 7 of `base_mode`). -/
def MAV_MODE_FLAG_SAFETY_ARMED : Nat := 128

/-- A value that is either an exact quotient `n / d` (the result of a Python
float division, carried as the unreduced fraction) or the `N/A`
placeholder string, as produced by the conditional expressions in main.py
lines 66-68. -/
inductive NumOrNA where
  | num (n : Int) (d : Int)
  | na
deriving DecidableEq, Repr

/-- Left-pad a digit string with zeros to width `w`. -/
def zfill (s : String) (w : Nat) : String :=
  String.mk (List.replicate (w - s.length) '0') ++ s

/-- Round-half-up of the quotient `n / d` (for `d > 0`), computably:
`⌊n / d + 1 / 2⌋` as a floor division. -/
def roundDiv (n d : Int) : Int :=
  Int.fdiv (2 * n + d) (2 * d)

/-- Fixed-point decimal rendering of the exact quotient `n / d` with `prec`
digits after the point, as the Python format spec `.2f` or `.1f` renders
the float `n / d`. -/
def renderFixed (prec : Nat) (n d : Int) : String :=
  let r : Int := roundDiv (n * (10 : Int) ^ prec) d
  let sign := if r < 0 then "-" else ""
  let m := r.natAbs
  let base := 10 ^ prec
  if prec = 0 then sign ++ toString m
  else sign ++ toString (m / base) ++ "." ++ zfill (toString (m % base)) prec

/-- Applying a `.precf` format specifier to a value: a number renders in
fixed point; the `N/A` string raises
`ValueError: Unknown format code f for object of type str`. -/
def formatF (prec : Nat) (v : NumOrNA) : Except String String :=
  match v with
  | .num n d => .ok (renderFixed prec n d)
  | .na => .error "Unknown format code f for object of type str"

/-- `handle_system_status` (main.py lines 54-73).  On HEARTBEAT: clears the
whole SYSTEM STATUS widget and writes the armed-status and flight-mode
lines.  On SYS_STATUS: computes `battery_voltage` (volts, or `N/A` when the
raw value is the sentinel -1), `load` (always `load / 10.0`, no sentinel
check), `cpu_usage` (`load / 10.0`, or `N/A` on sentinel), then appends the
three lines in order; a format error aborts mid-way, the `.error` carrying
the state as mutated so far.  `mode_string_v10` is the external pymavlink
mode decoder, passed in as a function of `(base_mode, custom_mode)`.
Messages of other types fall through with no effect. -/
def handle_system_status (mode_string_v10 : Nat → Nat → String)
    (msg : MavMessage) (s : AppState) : Except (AppState × String) AppState :=
  match msg with
  | .heartbeat base_mode custom_mode =>
    let armed_status :=
      if base_mode &&& MAV_MODE_FLAG_SAFETY_ARMED ≠ 0 then "ARMED" else "DISARMED"
    let mode_description := mode_string_v10 base_mode custom_mode
    .ok { s with system_info_text_widget :=
      ["Armed Status: " ++ armed_status,
       "Flight Mode: " ++ mode_description ++
         " (Custom Mode: " ++ toString custom_mode ++ ")"] }
  | .sysStatus voltage_battery load =>
    let battery_voltage : NumOrNA :=
      if voltage_battery ≠ -1 then .num voltage_battery 1000 else .na
    let loadPct : NumOrNA := .num load 10
    let cpu_usage : NumOrNA :=
      if load ≠ -1 then .num load 10 else .na
    match formatF 2 battery_voltage with
    | .error e => .error (s, e)
    | .ok bs =>
      let s1 := { s with system_info_text_widget :=
        s.system_info_text_widget ++ ["Battery Voltage: " ++ bs ++ "V"] }
      match formatF 1 loadPct with
      | .error e => .error (s1, e)
      | .ok ls =>
        let s2 := { s1 with system_info_text_widget :=
          s1.system_info_text_widget ++ ["System Load: " ++ ls ++ "%"] }
        match formatF 1 cpu_usage with
        | .error e => .error (s2, e)
        | .ok cs =>
          .ok { s2 with system_info_text_widget :=
            s2.system_info_text_widget ++ ["CPU Usage: " ++ cs ++ "%"] }
  | _ => .ok s

/-- `log_unknown_message` (main.py lines 76-78): prints a diagnostic with
the message id. -/
def log_unknown_message (msgId : Nat) (s : AppState) : AppState :=
  { s with diagnostics :=
      s.diagnostics ++ ["Unknown message type received: ID " ++ toString msgId] }

/-- One dispatch tick, `detect_incoming_messages` (main.py lines 81-94):
`recv` is the result of the non-blocking `recv_match` (`none` when no
datagram is pending).  Routes STATUSTEXT to `handle_statustext`, HEARTBEAT
and SYS_STATUS to `handle_system_status`, anything else to
`log_unknown_message`; with no message it falls through (the trailing
`root.after` reschedule has no observable state effect). -/
def detect_incoming_messages (timestamp : String)
    (mode_string_v10 : Nat → Nat → String) (recv : Option MavMessage)
    (s : AppState) : Except (AppState × String) AppState :=
  match recv with
  | none => .ok s
  | some msg =>
    match msg with
    | .statustext severity text => .ok (handle_statustext timestamp severity text s)
    | .heartbeat _ _ => handle_system_status mode_string_v10 msg s
    | .sysStatus _ _ => handle_system_status mode_string_v10 msg s
    | .other msgId => .ok (log_unknown_message msgId s)

/-- The Presentation Sink instructions `clear_all_data` issues: one
delete-all on each text widget. -/
inductive SinkOp where
  | deleteAllStatusText
  | deleteAllSystemInfo
deriving DecidableEq, Repr

/-- `clear_all_data` (main.py lines 97-100): deletes the contents of both
widgets (the two emitted sink instructions) and clears
`all_status_messages`. -/
def clear_all_data (s : AppState) : AppState × List SinkOp :=
  ({ s with status_text_widget := []
            system_info_text_widget := []
            all_status_messages := [] },
   [SinkOp.deleteAllStatusText, SinkOp.deleteAllSystemInfo])

/-- Folding a sequence of STATUSTEXT messages (severity, text pairs) through
`handle_statustext`, one per dispatch tick. -/
def runStatusTexts (timestamp : String) (msgs : List (Nat × String))
    (s : AppState) : AppState :=
  msgs.foldl (fun st m => handle_statustext timestamp m.1 m.2 st) s

/-! ## Status Log Buffer lemmas -/

/-- One STATUSTEXT insertion acts on `all_status_messages` as a capped
cons: the new rendered line is pushed to the front and the list is
truncated to `max_messages`. -/
theorem handle_statustext_all (timestamp : String) (severity : Nat) (text : String)
    (s : AppState) (h : s.all_status_messages.length ≤ max_messages) :
    (handle_statustext timestamp severity text s).all_status_messages
      = (full_message_line timestamp severity text :: s.all_status_messages).take
          max_messages := by
  by_cases hlen :
      (full_message_line timestamp severity text :: s.all_status_messages).length
        > max_messages
  · simp only [handle_statustext, hlen, if_pos]
    rw [List.dropLast_eq_take]
    congr 1
    simp only [List.length_cons] at hlen ⊢
    omega
  · simp only [handle_statustext, hlen, if_neg, not_false_iff]
    rw [List.take_of_length_le (by omega : _)]

/-- Truncating the tail of an append before a `take` does not change the
result of the `take`. -/
theorem take_append_take (a b : List String) (k : Nat) :
    (a ++ b.take k).take k = (a ++ b).take k := by
  rw [List.take_append_eq_append_take, List.take_append_eq_append_take, List.take_take]
  congr 1
  congr 1
  omega

/-- Folding a whole sequence of STATUSTEXT insertions: the buffer ends up
holding the rendered lines in reverse arrival order (newest first),
truncated to `max_messages`. -/
theorem runStatusTexts_all (timestamp : String) (msgs : List (Nat × String))
    (s : AppState) (h : s.all_status_messages.length ≤ max_messages) :
    (runStatusTexts timestamp msgs s).all_status_messages
      = ((msgs.map fun m => full_message_line timestamp m.1 m.2).reverse
          ++ s.all_status_messages).take max_messages := by
  induction msgs generalizing s with
  | nil =>
    simp only [runStatusTexts, List.foldl_nil, List.map_nil, List.reverse_nil,
      List.nil_append]
    rw [List.take_of_length_le h]
  | cons m ms ih =>
    have hstep := handle_statustext_all timestamp m.1 m.2 s h
    have hlen :
        (handle_statustext timestamp m.1 m.2 s).all_status_messages.length
          ≤ max_messages := by
      rw [hstep, List.length_take]
      exact Nat.min_le_left _ _
    have hrec := ih (handle_statustext timestamp m.1 m.2 s) hlen
    simp only [runStatusTexts, List.foldl_cons] at hrec ⊢
    rw [hrec, hstep, take_append_take]
    simp [List.append_assoc]

/-- Claim C2: for every sequence of N STATUSTEXT insertions starting from
the empty buffer, `all_status_messages` is exactly the rendered lines of the
most recent `min N max_messages` messages in newest-first order, and its
length is `min N max_messages`. -/
theorem statuslog_capacity_invariant (timestamp : String)
    (msgs : List (Nat × String)) :
    (runStatusTexts timestamp msgs initialState).all_status_messages
      = ((msgs.map fun m => full_message_line timestamp m.1 m.2).reverse).take
          max_messages
    ∧ (runStatusTexts timestamp msgs initialState).all_status_messages.length
      = min msgs.length max_messages := by
  have h := runStatusTexts_all timestamp msgs initialState
    (by simp [initialState])
  have h0 : initialState.all_status_messages = [] := rfl
  rw [h0, List.append_nil] at h
  refine ⟨h, ?_⟩
  rw [h, List.length_take, List.length_reverse, List.length_map, Nat.min_comm]

/-- Claim C3: at capacity, one more STATUSTEXT insert pushes the new line to
the front and removes exactly the oldest (last) stored entry; below
capacity nothing is removed; the length never exceeds `max_messages` after
an insert completes. -/
theorem statuslog_eviction (timestamp : String) (severity : Nat) (text : String)
    (s : AppState) (h : s.all_status_messages.length ≤ max_messages) :
    (s.all_status_messages.length = max_messages →
      (handle_statustext timestamp severity text s).all_status_messages
        = full_message_line timestamp severity text :: s.all_status_messages.dropLast)
    ∧ (s.all_status_messages.length < max_messages →
      (handle_statustext timestamp severity text s).all_status_messages
        = full_message_line timestamp severity text :: s.all_status_messages)
    ∧ (handle_statustext timestamp severity text s).all_status_messages.length
        ≤ max_messages := by
  refine ⟨?_, ?_, ?_⟩
  · intro hcap
    have hgt :
        (full_message_line timestamp severity text :: s.all_status_messages).length
          > max_messages := by
      simp only [List.length_cons]
      omega
    simp only [handle_statustext, hgt, if_pos]
    apply List.dropLast_cons_of_ne_nil
    intro hnil
    rw [hnil] at hcap
    simp [max_messages] at hcap
  · intro hlt
    have hle :
        ¬ (full_message_line timestamp severity text :: s.all_status_messages).length
          > max_messages := by
      simp only [List.length_cons]
      omega
    simp only [handle_statustext, hle, if_neg, not_false_iff]
  · rw [handle_statustext_all timestamp severity text s h, List.length_take]
    exact Nat.min_le_left _ _

/-- A state whose log buffer is exactly at capacity, used to exercise the
eviction path. -/
def atCapacityState : AppState :=
  { status_text_widget := List.replicate max_messages "line"
    system_info_text_widget := []
    all_status_messages := List.replicate max_messages "line"
    diagnostics := [] }

/-- Witness for C3: at the concrete at-capacity state, the insert prepends
the rendered line, drops the last entry, and stays within capacity. -/
theorem statuslog_eviction_witness :
    (handle_statustext "t" 6 "m" atCapacityState).all_status_messages
      = full_message_line "t" 6 "m"
          :: (List.replicate max_messages "line").dropLast
    ∧ (handle_statustext "t" 6 "m" atCapacityState).all_status_messages.length
        ≤ max_messages := by
  have h := statuslog_eviction "t" 6 "m" atCapacityState
    (by simp [atCapacityState])
  exact ⟨h.1 (by simp [atCapacityState]), h.2.2⟩

/-! ## Dispatch routing -/

/-- `handle_system_status` touches only the SYSTEM STATUS widget: whether it
returns normally or raises mid-way, the log buffer, the STATUSTEXT widget
and the diagnostics are unchanged. -/
theorem handle_system_status_frame (m : Nat → Nat → String) (msg : MavMessage)
    (s : AppState) :
    (∀ s₁, handle_system_status m msg s = .ok s₁ →
      s₁.all_status_messages = s.all_status_messages
      ∧ s₁.status_text_widget = s.status_text_widget
      ∧ s₁.diagnostics = s.diagnostics)
    ∧ (∀ s₁ e, handle_system_status m msg s = .error (s₁, e) →
      s₁.all_status_messages = s.all_status_messages
      ∧ s₁.status_text_widget = s.status_text_widget
      ∧ s₁.diagnostics = s.diagnostics) := by
  cases msg with
  | statustext severity text =>
    constructor
    · intro s₁ hok
      simp only [handle_system_status, Except.ok.injEq] at hok
      subst hok
      exact ⟨rfl, rfl, rfl⟩
    · intro s₁ e herr
      simp [handle_system_status] at herr
  | heartbeat base_mode custom_mode =>
    constructor
    · intro s₁ hok
      simp only [handle_system_status, Except.ok.injEq] at hok
      subst hok
      exact ⟨rfl, rfl, rfl⟩
    · intro s₁ e herr
      simp [handle_system_status] at herr
  | sysStatus voltage_battery load =>
    by_cases hv : voltage_battery = -1
    · constructor
      · intro s₁ hok
        subst hv
        simp [handle_system_status, formatF] at hok
      · intro s₁ e herr
        subst hv
        simp [handle_system_status, formatF] at herr
        rcases herr with ⟨h1, -⟩
        subst h1
        exact ⟨rfl, rfl, rfl⟩
    · by_cases hl : load = -1
      · constructor
        · intro s₁ hok
          subst hl
          simp [handle_system_status, formatF, hv] at hok
        · intro s₁ e herr
          subst hl
          simp [handle_system_status, formatF, hv] at herr
          rcases herr with ⟨h1, -⟩
          subst h1
          exact ⟨rfl, rfl, rfl⟩
      · constructor
        · intro s₁ hok
          simp [handle_system_status, formatF, hv, hl] at hok
          subst hok
          exact ⟨rfl, rfl, rfl⟩
        · intro s₁ e herr
          simp [handle_system_status, formatF, hv, hl] at herr
  | other msgId =>
    constructor
    · intro s₁ hok
      simp only [handle_system_status, Except.ok.injEq] at hok
      subst hok
      exact ⟨rfl, rfl, rfl⟩
    · intro s₁ e herr
      simp [handle_system_status] at herr

/-- Claim C4: one tick on a decoded message performs exactly one routing
action by variant tag: STATUSTEXT goes to the log-buffer insert (no
snapshot or diagnostic change), HEARTBEAT and SYS_STATUS go to the
snapshot handler (no buffer or diagnostic change), and any other tag is
only logged as a diagnostic (no buffer or snapshot change). -/
theorem tick_routing (timestamp : String) (m : Nat → Nat → String) (s : AppState)
    (severity : Nat) (text : String) (base_mode custom_mode : Nat)
    (voltage load : Int) (msgId : Nat) :
    (detect_incoming_messages timestamp m (some (.statustext severity text)) s
       = .ok (handle_statustext timestamp severity text s)
     ∧ (handle_statustext timestamp severity text s).system_info_text_widget
         = s.system_info_text_widget
     ∧ (handle_statustext timestamp severity text s).diagnostics = s.diagnostics)
    ∧ (detect_incoming_messages timestamp m (some (.heartbeat base_mode custom_mode)) s
        = handle_system_status m (.heartbeat base_mode custom_mode) s)
    ∧ (detect_incoming_messages timestamp m (some (.sysStatus voltage load)) s
        = handle_system_status m (.sysStatus voltage load) s)
    ∧ (∀ s₁, handle_system_status m (.heartbeat base_mode custom_mode) s = .ok s₁ →
        s₁.all_status_messages = s.all_status_messages
        ∧ s₁.status_text_widget = s.status_text_widget
        ∧ s₁.diagnostics = s.diagnostics)
    ∧ (∀ s₁, handle_system_status m (.sysStatus voltage load) s = .ok s₁ →
        s₁.all_status_messages = s.all_status_messages
        ∧ s₁.status_text_widget = s.status_text_widget
        ∧ s₁.diagnostics = s.diagnostics)
    ∧ (detect_incoming_messages timestamp m (some (.other msgId)) s
        = .ok { s with diagnostics :=
            s.diagnostics ++ ["Unknown message type received: ID " ++ toString msgId] }) := by
  refine ⟨⟨rfl, ?_, ?_⟩, rfl, rfl, ?_, ?_, rfl⟩
  · simp only [handle_statustext]
    split <;> rfl
  · simp only [handle_statustext]
    split <;> rfl
  · exact (handle_system_status_frame m (.heartbeat base_mode custom_mode) s).1
  · exact (handle_system_status_frame m (.sysStatus voltage load) s).1

/-- Witness for C4 at concrete inputs: an unknown tag only appends one
diagnostic line, and a HEARTBEAT applied to the initial state leaves the
log buffer, STATUSTEXT widget and diagnostics untouched. -/
theorem tick_routing_witness :
    (detect_incoming_messages "t" (fun _ _ => "MODE") (some (.other 42)) initialState
       = .ok { initialState with
           diagnostics := ["Unknown message type received: ID 42"] })
    ∧ (({ initialState with system_info_text_widget :=
           ["Armed Status: ARMED",
            "Flight Mode: MODE (Custom Mode: 4)"] } : AppState).all_status_messages
         = initialState.all_status_messages) := by
  have h := tick_routing "t" (fun _ _ => "MODE") initialState 3 "hi" 217 4 12600 550 42
  refine ⟨h.2.2.2.2.2, ?_⟩
  exact (h.2.2.2.1 _ rfl).1

/-! ## Vehicle State Snapshot rendering -/

/-- Claim C5: a HEARTBEAT replaces the whole SYSTEM STATUS widget with
exactly the armed-status and flight-mode lines (so battery and load rows
are absent until a SYS_STATUS arrives), while a SYS_STATUS with
non-sentinel fields only appends the battery, system-load and CPU lines
after whatever the widget already holds. -/
theorem heartbeat_clears_snapshot (m : Nat → Nat → String) (s : AppState)
    (base_mode custom_mode : Nat) (voltage load : Int) :
    (handle_system_status m (.heartbeat base_mode custom_mode) s
       = .ok { s with system_info_text_widget :=
           ["Armed Status: "
              ++ (if base_mode &&& MAV_MODE_FLAG_SAFETY_ARMED ≠ 0 then "ARMED"
                  else "DISARMED"),
            "Flight Mode: " ++ m base_mode custom_mode
              ++ " (Custom Mode: " ++ toString custom_mode ++ ")"] })
    ∧ (voltage ≠ -1 → load ≠ -1 →
       handle_system_status m (.sysStatus voltage load) s
         = .ok { s with system_info_text_widget := s.system_info_text_widget ++
             ["Battery Voltage: " ++ renderFixed 2 voltage 1000 ++ "V",
              "System Load: " ++ renderFixed 1 load 10 ++ "%",
              "CPU Usage: " ++ renderFixed 1 load 10 ++ "%"] }) := by
  constructor
  · rfl
  · intro hv hl
    simp [handle_system_status, formatF, hv, hl, List.append_assoc]

/-- Witness for C5: after a concrete armed HEARTBEAT the widget holds
exactly the two heartbeat lines, and a concrete SYS_STATUS appends its
three lines. -/
theorem heartbeat_clears_snapshot_witness :
    handle_system_status (fun _ _ => "STABILIZE") (.heartbeat 217 4) initialState
      = .ok { initialState with system_info_text_widget :=
          ["Armed Status: ARMED", "Flight Mode: STABILIZE (Custom Mode: 4)"] }
    ∧ handle_system_status (fun _ _ => "STABILIZE") (.sysStatus 12600 550) initialState
      = .ok { initialState with system_info_text_widget :=
          ["Battery Voltage: 12.60V", "System Load: 55.0%", "CPU Usage: 55.0%"] } := by
  have h := heartbeat_clears_snapshot (fun _ _ => "STABILIZE") initialState
    217 4 12600 550
  exact ⟨h.1, h.2 (by decide) (by decide)⟩

/-! ## Severity Catalog -/

/-- Claim C6: the severity lookup is total with a fixed fallback: each code
in 0..7 resolves to its documented (label, color) pair and every larger
code resolves to the UNKNOWN/black default; the catalog is a pure function,
never mutated. -/
theorem severity_resolve_total (code : Nat) :
    severity_levels_get 0 = ("EMERGENCY", "red")
    ∧ severity_levels_get 1 = ("ALERT", "orange red")
    ∧ severity_levels_get 2 = ("CRITICAL", "dark orange")
    ∧ severity_levels_get 3 = ("ERROR", "red")
    ∧ severity_levels_get 4 = ("WARNING", "orange")
    ∧ severity_levels_get 5 = ("NOTICE", "green")
    ∧ severity_levels_get 6 = ("INFO", "blue")
    ∧ severity_levels_get 7 = ("DEBUG", "gray")
    ∧ (7 < code → severity_levels_get code = ("UNKNOWN", "black")) := by
  refine ⟨rfl, rfl, rfl, rfl, rfl, rfl, rfl, rfl, ?_⟩
  intro h
  have h0 : code ≠ 0 := by omega
  have h1 : code ≠ 1 := by omega
  have h2 : code ≠ 2 := by omega
  have h3 : code ≠ 3 := by omega
  have h4 : code ≠ 4 := by omega
  have h5 : code ≠ 5 := by omega
  have h6 : code ≠ 6 := by omega
  have h7 : code ≠ 7 := by omega
  simp [severity_levels_get, severity_levels, h0, h1, h2, h3, h4, h5, h6, h7]

/-- Witness for C6: the fallback at the concrete out-of-range code 255. -/
theorem severity_resolve_total_witness :
    severity_levels_get 255 = ("UNKNOWN", "black") :=
  (severity_resolve_total 255).2.2.2.2.2.2.2.2 (by decide)

/-! ## Fixed-width line formatting -/

/-- Padding a string no longer than the field width yields exactly the
field width. -/
theorem ljust_length (s : String) (w : Nat) (h : s.length ≤ w) :
    (ljust s w).length = w := by
  unfold ljust
  rw [String.length_append]
  have h2 : (String.mk (List.replicate (w - s.length) ' ')).length = w - s.length := by
    show (List.replicate (w - s.length) ' ').length = w - s.length
    exact List.length_replicate _ _
  rw [h2]
  omega

/-- Every severity label, including the UNKNOWN fallback, fits in the
12-character field. -/
theorem severity_label_le (code : Nat) : (severity_levels_get code).1.length ≤ 12 := by
  unfold severity_levels_get severity_levels
  split_ifs <;> decide

/-- Claim C7: each STATUSTEXT display line is the timestamp left-justified
in a 20-character field, the severity label bracketed and left-justified in
a 12-character field, and the text left-justified in a 60-character field;
with in-range inputs the whole line is 96 characters. -/
theorem statustext_line_widths (timestamp : String) (severity : Nat) (text : String)
    (h1 : timestamp.length ≤ 20) (h2 : text.length ≤ 60) :
    full_message_line timestamp severity text
      = ljust timestamp 20 ++ " [" ++ ljust (severity_levels_get severity).1 12
          ++ "] " ++ ljust text 60
    ∧ (ljust timestamp 20).length = 20
    ∧ (ljust (severity_levels_get severity).1 12).length = 12
    ∧ (ljust text 60).length = 60
    ∧ (full_message_line timestamp severity text).length = 96 := by
  refine ⟨rfl, ljust_length _ _ h1, ljust_length _ _ (severity_label_le severity),
    ljust_length _ _ h2, ?_⟩
  unfold full_message_line
  rw [String.length_append, String.length_append, String.length_append,
    String.length_append, ljust_length _ _ h1,
    ljust_length _ _ (severity_label_le severity), ljust_length _ _ h2]
  decide

/-- Witness for C7 at a concrete 19-character timestamp and short text:
the rendered line is exactly 96 characters. -/
theorem statustext_line_widths_witness :
    ("2024-01-01 00:00:00" : String).length ≤ 20
    ∧ ("Low battery" : String).length ≤ 60
    ∧ (full_message_line "2024-01-01 00:00:00" 3 "Low battery").length = 96 :=
  ⟨by decide, by decide,
    (statustext_line_widths "2024-01-01 00:00:00" 3 "Low battery"
      (by decide) (by decide)).2.2.2.2⟩

/-! ## Clear, idle tick, and the SYS_STATUS sentinel defect -/

/-- Claim C8: `clear_all_data` empties both widgets and the stored message
list, is idempotent (a second call changes nothing), and emits the same
single pair of widget-clearing sink instructions on every call. -/
theorem clear_all_idempotent (s : AppState) :
    (clear_all_data s).1.status_text_widget = []
    ∧ (clear_all_data s).1.system_info_text_widget = []
    ∧ (clear_all_data s).1.all_status_messages = []
    ∧ clear_all_data (clear_all_data s).1 = clear_all_data s
    ∧ (clear_all_data s).2
        = [SinkOp.deleteAllStatusText, SinkOp.deleteAllSystemInfo] :=
  ⟨rfl, rfl, rfl, rfl, rfl⟩

/-- Claim C9: a dispatch tick with no pending datagram returns the state
unchanged: no buffer, snapshot, widget or diagnostic mutation. -/
theorem tick_no_data (timestamp : String) (m : Nat → Nat → String) (s : AppState) :
    detect_incoming_messages timestamp m none s = .ok s :=
  rfl

/-- Claim C1 evidence: against the documented sentinel handling, a
SYS_STATUS whose battery voltage is the sentinel -1 makes
`handle_system_status` raise the string-format error before touching the
widget, instead of rendering an unavailable marker; the non-sentinel
scalings themselves are exact (12600 mV renders as 12.60 V and 550
permille as 55.0 percent). -/
theorem sysstatus_sentinel_raises (m : Nat → Nat → String) (s : AppState) :
    handle_system_status m (.sysStatus (-1) 500) s
      = .error (s, "Unknown format code f for object of type str")
    ∧ renderFixed 2 12600 1000 = "12.60"
    ∧ renderFixed 1 550 10 = "55.0" :=
  ⟨rfl, by decide, by decide⟩

/-- Claim C10: formatting crashes on sentinels.  With battery voltage -1
the handler raises the format error at the very first line (state
untouched); with a non-sentinel voltage but load -1 the battery and
System Load lines are appended — the System Load line applying
`load / 10.0` with no sentinel check, hence rendering -0.1 — and the CPU
line then raises the same format error. -/
theorem sysstatus_format_crash (m : Nat → Nat → String) (s : AppState)
    (voltage load : Int) :
    (handle_system_status m (.sysStatus (-1) load) s
       = .error (s, "Unknown format code f for object of type str"))
    ∧ (voltage ≠ -1 →
       handle_system_status m (.sysStatus voltage (-1)) s
         = .error ({ s with system_info_text_widget := s.system_info_text_widget ++
             ["Battery Voltage: " ++ renderFixed 2 voltage 1000 ++ "V",
              "System Load: -0.1%"] },
           "Unknown format code f for object of type str"))
    ∧ renderFixed 1 (-1) 10 = "-0.1" := by
  refine ⟨rfl, ?_, by decide⟩
  intro hv
  simp [handle_system_status, formatF, hv, List.append_assoc]
  decide

/-- Witness for C10: at battery voltage 11800 mV and sentinel load -1 the
handler stops with the format error after appending the battery line and
the unchecked System Load line. -/
theorem sysstatus_format_crash_witness :
    handle_system_status (fun _ _ => "MODE") (.sysStatus 11800 (-1)) initialState
      = .error ({ initialState with system_info_text_widget :=
          ["Battery Voltage: 11.80V", "System Load: -0.1%"] },
        "Unknown format code f for object of type str") :=
  (sysstatus_format_crash (fun _ _ => "MODE") initialState 11800 (-1)).2.1
    (by decide)
